import Mathlib

/-!
Verification of the metrics facade core against its specification.

Sources embedded here:
* metrics/src/recorder.rs: the global recorder slot (RecorderOnceCell),
  RecorderVariant, NoopRecorder and the free functions set_recorder,
  set_boxed_recorder, clear_recorder, recorder, try_recorder.
* metrics-util/src/debugging.rs: DebuggingRecorder, Snapshotter, Snapshot,
  DebugValue.

Modelling conventions:
* A reference of static lifetime to a dynamic Recorder object is modelled as an
  abstract address (a natural number).  Memory reclamation is made explicit:
  operations that can run the RecorderVariant destructor return the list of
  addresses freed during the call.
* Sequential semantics: the claims under study are about sequences of calls, so
  atomics are modelled as plain state and compare-exchange as a test on that
  state.
* 64-bit floats are carried as their 64-bit patterns (natural numbers).  The
  snapshot layer never performs float arithmetic: gauges store the bit pattern
  of the value (AtomicU64) and the read path is f64 from_bits of that pattern,
  which is the identity on bit patterns, so the bit-pattern representation is
  exact.
-/

namespace Metrics

/-- A static-lifetime reference to a recorder object, modelled as an address. -/
abbrev RecRef := Nat

/-- The three values of the state word of the slot (recorder.rs lines 14-21). -/
inductive CellState where
  | uninitialized
  | initializing
  | initialized
deriving DecidableEq, Repr

/-- The type returned by set_recorder when a recorder has already been set
(recorder.rs line 233: a unit struct). -/
structure SetRecorderError where
deriving DecidableEq, Repr

/-- RecorderOnceCell (recorder.rs lines 57-60): an UnsafeCell holding an
optional recorder reference, plus an atomic state word. -/
structure RecorderOnceCell where
  recorder : Option RecRef
  state : CellState
deriving DecidableEq, Repr

/-- RecorderOnceCell.new (recorder.rs lines 64-66). -/
def RecorderOnceCell.new : RecorderOnceCell :=
  { recorder := none, state := CellState.uninitialized }

/-- RecorderVariant (recorder.rs lines 23-26).  from_boxed leaks the box, so in
both variants only the resulting static reference is stored. -/
inductive RecorderVariant where
  | Static (r : RecRef)
  | Boxed (r : RecRef)
deriving DecidableEq, Repr

/-- The reference carried by a variant. -/
def RecorderVariant.ref : RecorderVariant → RecRef
  | .Static r => r
  | .Boxed r => r

/-- The Drop implementation of RecorderVariant (recorder.rs lines 45-54): for
the Boxed variant it reconstructs the box from the leaked reference and drops
it, freeing that address; for Static it frees nothing. -/
def RecorderVariant.dropFrees : RecorderVariant → List RecRef
  | .Static _ => []
  | .Boxed r => [r]

/-- into_recorder_ref (recorder.rs lines 37-42).  The function consumes self by
value and the match arms only copy out the contained reference (references are
Copy), so, because RecorderVariant implements Drop, self is dropped when the
function returns: the returned reference is paired with the addresses freed by
that drop.  For Boxed this frees the very address being returned. -/
def RecorderVariant.into_recorder_ref (v : RecorderVariant) : RecRef × List RecRef :=
  (v.ref, v.dropFrees)

/-- Outcome of RecorderOnceCell.set: the returned Result, the cell after the
call, and the addresses freed during the call. -/
structure SetOutcome where
  result : Except SetRecorderError PUnit.{1}
  cell : RecorderOnceCell
  freed : List RecRef

/-- Whether a set outcome succeeded. -/
def SetOutcome.ok (o : SetOutcome) : Bool :=
  match o.result with
  | .ok _ => true
  | .error _ => false

/-- RecorderOnceCell.set (recorder.rs lines 68-90).  The compare-exchange from
UNINITIALIZED to INITIALIZING succeeds exactly when the state is UNINITIALIZED;
the winner writes the reference produced by into_recorder_ref and stores
INITIALIZED.  On the loser path the match falls through to Err and the variant
argument is dropped at the end of the call, running its Drop implementation. -/
def RecorderOnceCell.set (c : RecorderOnceCell) (v : RecorderVariant) : SetOutcome :=
  match c.state with
  | CellState.uninitialized =>
      let rf := v.into_recorder_ref
      { result := Except.ok PUnit.unit
        cell := { recorder := some rf.1, state := CellState.initialized }
        freed := rf.2 }
  | _ =>
      { result := Except.error {}
        cell := c
        freed := v.dropFrees }

/-- RecorderOnceCell.clear (recorder.rs lines 98-102): a single relaxed store of
UNINITIALIZED to the state word.  The recorder field is not written and nothing
is dropped, so the freed list is empty. -/
def RecorderOnceCell.clear (c : RecorderOnceCell) : RecorderOnceCell × List RecRef :=
  ({ recorder := c.recorder, state := CellState.uninitialized }, [])

/-- RecorderOnceCell.try_load (recorder.rs lines 104-112): None unless the state
is INITIALIZED, in which case the cell content is read. -/
def RecorderOnceCell.try_load (c : RecorderOnceCell) : Option RecRef :=
  if c.state = CellState.initialized then c.recorder else none

/-- set_recorder (recorder.rs lines 197-199). -/
def set_recorder (c : RecorderOnceCell) (r : RecRef) : SetOutcome :=
  c.set (RecorderVariant.Static r)

/-- set_boxed_recorder (recorder.rs lines 210-212): the box is leaked into a
static reference by RecorderVariant.from_boxed, then set is called. -/
def set_boxed_recorder (c : RecorderOnceCell) (r : RecRef) : SetOutcome :=
  c.set (RecorderVariant.Boxed r)

/-- clear_recorder (recorder.rs lines 227-229). -/
def clear_recorder (c : RecorderOnceCell) : RecorderOnceCell × List RecRef :=
  c.clear

/-- try_recorder (recorder.rs lines 258-260). -/
def try_recorder (c : RecorderOnceCell) : Option RecRef :=
  c.try_load

/-- The address of the static NOOP NoopRecorder inside recorder()
(recorder.rs line 251). -/
def noopRef : RecRef := 0

/-- recorder (recorder.rs lines 250-253): the loaded recorder, or the static
no-op recorder when none is installed. -/
def recorder (c : RecorderOnceCell) : RecRef :=
  (try_recorder c).getD noopRef

/-- Run a sequence of set attempts left to right on a cell, collecting for each
attempt whether it succeeded, together with the final cell and every address
freed along the way. -/
def runSets (c : RecorderOnceCell) : List RecorderVariant → RecorderOnceCell × List Bool
  | [] => (c, [])
  | v :: vs =>
      let o := c.set v
      let rest := runSets o.cell vs
      (rest.1, o.ok :: rest.2)

/-- Metric key identity: opaque, externally supplied, with value equality. -/
abbrev Key := String

/-- Key names used by describe calls in the recorder trait. -/
abbrev KeyName := String

/-- Unit metadata attached to a metric; opaque here, only compared for
equality. -/
abbrev Unit := String

/-- Shared string type used by the recorder trait for descriptions. -/
abbrev SharedString := String

/-- Lookup in an association list, first entry with the given key. -/
def alookup {κ β : Type} [DecidableEq κ] (k : κ) : List (κ × β) → Option β
  | [] => none
  | (k1, v) :: rest => if k1 = k then some v else alookup k rest

/-- Replace the value stored at a key in an association list, if present. -/
def aset {κ β : Type} [DecidableEq κ] (k : κ) (v : β) : List (κ × β) → List (κ × β)
  | [] => []
  | (k1, v1) :: rest => if k1 = k then (k1, v) :: rest else (k1, v1) :: aset k v rest

/-- Modelled from the spec: MetricKind (metrics-util kind.rs is not among the
sources).  Spec section 3: a closed enum of Counter, Gauge and Histogram. -/
inductive MetricKind where
  | Counter
  | Gauge
  | Histogram
deriving DecidableEq, Repr

/-- Modelled from the spec: CompositeKey (metrics-util key code is not among
the sources).  Spec section 3: a pair of MetricKind and Key; composite keys of
differing kind but identical Key are distinct entries. -/
structure CompositeKey where
  kind : MetricKind
  key : Key
deriving DecidableEq, Repr

/-- CompositeKey.new, as used by debugging.rs lines 122, 127 and 132. -/
def CompositeKey.new (kind : MetricKind) (key : Key) : CompositeKey :=
  { kind := kind, key := key }

/-- Modelled from the spec: the Registry (metrics-util registry.rs is not among
the sources).  Spec sections 3 and 4.3: a mapping from key to the matching
handle storage for each kind; entries are created at most once per key and
never removed.  The handle storages are inlined: a counter is an unsigned
64-bit value, a gauge stores a 64-bit bit pattern, a histogram is a buffer of
samples (floats carried as bit patterns). -/
structure Registry where
  counters : List (Key × Nat)
  gauges : List (Key × Nat)
  histograms : List (Key × List Nat)
deriving DecidableEq, Repr

/-- Registry.new, as used by debugging.rs line 94: empty maps. -/
def Registry.new : Registry :=
  { counters := [], gauges := [], histograms := [] }

/-- Modelled from the spec: a counter handle as handed out by register calls
(metrics handle code is not among the sources).  It either points at the
registry storage for its key, or is the inert no-op handle returned by
Counter::noop() that silently discards writes. -/
inductive Counter where
  | noop
  | handle (k : Key)
deriving DecidableEq, Repr

/-- Modelled from the spec: a gauge handle, no-op or backed by the registry. -/
inductive Gauge where
  | noop
  | handle (k : Key)
deriving DecidableEq, Repr

/-- Modelled from the spec: a histogram handle, no-op or backed by the
registry. -/
inductive Histogram where
  | noop
  | handle (k : Key)
deriving DecidableEq, Repr

/-- Modelled from the spec: Registry.get_or_create_counter (spec section 4.3):
if an entry exists return a handle to it, else create storage initialized to
zero and return a handle to the new entry. -/
def Registry.get_or_create_counter (r : Registry) (k : Key) : Counter × Registry :=
  match alookup k r.counters with
  | some _ => (Counter.handle k, r)
  | none => (Counter.handle k, { r with counters := r.counters ++ [(k, 0)] })

/-- Modelled from the spec: Registry.get_or_create_gauge; new storage holds the
bit pattern of 0.0, which is 0. -/
def Registry.get_or_create_gauge (r : Registry) (k : Key) : Gauge × Registry :=
  match alookup k r.gauges with
  | some _ => (Gauge.handle k, r)
  | none => (Gauge.handle k, { r with gauges := r.gauges ++ [(k, 0)] })

/-- Modelled from the spec: Registry.get_or_create_histogram; new storage is an
empty sample buffer. -/
def Registry.get_or_create_histogram (r : Registry) (k : Key) : Histogram × Registry :=
  match alookup k r.histograms with
  | some _ => (Histogram.handle k, r)
  | none => (Histogram.handle k, { r with histograms := r.histograms ++ [(k, [])] })

/-- Modelled from the spec: incrementing through a counter handle (spec section
3): an atomic fetch-add on the 64-bit storage; the no-op handle discards the
write. -/
def Counter.increment (c : Counter) (amt : Nat) (r : Registry) : Registry :=
  match c with
  | Counter.noop => r
  | Counter.handle k =>
      match alookup k r.counters with
      | none => r
      | some v => { r with counters := aset k ((v + amt) % 2 ^ 64) r.counters }

/-- f64 to_bits on the bit-pattern representation of floats: a bit
reinterpretation, the identity. -/
def f64ToBits (v : Nat) : Nat := v

/-- f64 from_bits on the bit-pattern representation of floats: a bit
reinterpretation, the identity; no rounding (debugging.rs line 63 applies it to
the loaded gauge storage). -/
def f64FromBits (bits : Nat) : Nat := bits

/-- Modelled from the spec: setting through a gauge handle (spec section 3):
the storage atomically receives the 64-bit bit pattern of the value; the no-op
handle discards the write. -/
def Gauge.set (g : Gauge) (v : Nat) (r : Registry) : Registry :=
  match g with
  | Gauge.noop => r
  | Gauge.handle k =>
      match alookup k r.gauges with
      | none => r
      | some _ => { r with gauges := aset k (f64ToBits v) r.gauges }

/-- Modelled from the spec: recording through a histogram handle (spec section
3): an append to the sample buffer; the no-op handle discards the write. -/
def Histogram.record (h : Histogram) (sample : Nat) (r : Registry) : Registry :=
  match h with
  | Histogram.noop => r
  | Histogram.handle k =>
      match alookup k r.histograms with
      | none => r
      | some buf => { r with histograms := aset k (buf ++ [sample]) r.histograms }

/-- NoopRecorder.describe_counter (recorder.rs line 172): an empty body, the
identity on every observable metric storage. -/
def NoopRecorder.describe_counter (_key : KeyName) (_u : Option Unit)
    (_d : SharedString) (r : Registry) : Registry := r

/-- NoopRecorder.describe_gauge (recorder.rs line 173): an empty body. -/
def NoopRecorder.describe_gauge (_key : KeyName) (_u : Option Unit)
    (_d : SharedString) (r : Registry) : Registry := r

/-- NoopRecorder.describe_histogram (recorder.rs line 174): an empty body. -/
def NoopRecorder.describe_histogram (_key : KeyName) (_u : Option Unit)
    (_d : SharedString) (r : Registry) : Registry := r

/-- NoopRecorder.register_counter (recorder.rs lines 175-177): returns
Counter::noop() and touches nothing. -/
def NoopRecorder.register_counter (_key : Key) (r : Registry) : Counter × Registry :=
  (Counter.noop, r)

/-- NoopRecorder.register_gauge (recorder.rs lines 178-180). -/
def NoopRecorder.register_gauge (_key : Key) (r : Registry) : Gauge × Registry :=
  (Gauge.noop, r)

/-- NoopRecorder.register_histogram (recorder.rs lines 181-183). -/
def NoopRecorder.register_histogram (_key : Key) (r : Registry) : Histogram × Registry :=
  (Histogram.noop, r)

/-- A point-in-time value for a metric (debugging.rs lines 31-38); floats carried
as 64-bit patterns. -/
inductive DebugValue where
  | Counter (v : Nat)
  | Gauge (bits : Nat)
  | Histogram (vs : List Nat)
deriving DecidableEq, Repr

/-- The metadata IndexMap of the debugging recorder (debugging.rs line 87):
insertion-ordered, keyed by composite key, holding optional unit and optional
description. -/
abbrev MetadataMap := List (CompositeKey × (Option Unit × Option String))

/-- The shared state behind DebuggingRecorder and every Snapshotter derived
from it (debugging.rs lines 41-44 and 85-88): the registry and the metadata
map, held through shared references, so one state value models both. -/
structure DebuggingRecorder where
  registry : Registry
  metrics : MetadataMap
deriving DecidableEq, Repr

/-- DebuggingRecorder.new (debugging.rs lines 92-97). -/
def DebuggingRecorder.new : DebuggingRecorder :=
  { registry := Registry.new, metrics := [] }

/-- The metadata update performed by register_metric (debugging.rs lines
107-112): entry(rkey).or_insert((None, None)) followed by unconditional
assignment of both fields, so the entry value becomes exactly (unit, desc),
keeping the position of an existing entry and appending a new one. -/
def metadataUpsert (k : CompositeKey) (u : Option Unit) (d : Option String) :
    MetadataMap → MetadataMap
  | [] => [(k, (u, d))]
  | (k1, v) :: rest =>
      if k1 = k then (k1, (u, d)) :: rest
      else (k1, v) :: metadataUpsert k u d rest

/-- DebuggingRecorder.register_metric (debugging.rs lines 107-112). -/
def DebuggingRecorder.register_metric (s : DebuggingRecorder) (rkey : CompositeKey)
    (u : Option Unit) (d : Option String) : DebuggingRecorder :=
  { s with metrics := metadataUpsert rkey u d s.metrics }

/-- DebuggingRecorder.describe_counter (debugging.rs lines 121-124). -/
def DebuggingRecorder.describe_counter (s : DebuggingRecorder) (key : Key)
    (u : Option Unit) (d : Option String) : DebuggingRecorder :=
  s.register_metric (CompositeKey.new MetricKind.Counter key) u d

/-- DebuggingRecorder.describe_gauge (debugging.rs lines 126-129). -/
def DebuggingRecorder.describe_gauge (s : DebuggingRecorder) (key : Key)
    (u : Option Unit) (d : Option String) : DebuggingRecorder :=
  s.register_metric (CompositeKey.new MetricKind.Gauge key) u d

/-- DebuggingRecorder.describe_histogram (debugging.rs lines 131-134). -/
def DebuggingRecorder.describe_histogram (s : DebuggingRecorder) (key : Key)
    (u : Option Unit) (d : Option String) : DebuggingRecorder :=
  s.register_metric (CompositeKey.new MetricKind.Histogram key) u d

/-- DebuggingRecorder.register_counter (debugging.rs lines 136-139). -/
def DebuggingRecorder.register_counter (s : DebuggingRecorder) (key : Key) :
    Counter × DebuggingRecorder :=
  let cr := s.registry.get_or_create_counter key
  (cr.1, { s with registry := cr.2 })

/-- DebuggingRecorder.register_gauge (debugging.rs lines 141-144). -/
def DebuggingRecorder.register_gauge (s : DebuggingRecorder) (key : Key) :
    Gauge × DebuggingRecorder :=
  let gr := s.registry.get_or_create_gauge key
  (gr.1, { s with registry := gr.2 })

/-- DebuggingRecorder.register_histogram (debugging.rs lines 146-149). -/
def DebuggingRecorder.register_histogram (s : DebuggingRecorder) (key : Key) :
    Histogram × DebuggingRecorder :=
  let hr := s.registry.get_or_create_histogram key
  (hr.1, { s with registry := hr.2 })

/-- One entry of a snapshot: composite key, unit, description, value
(debugging.rs line 12). -/
abbrev SnapEntry := CompositeKey × Option Unit × Option String × DebugValue

/-- The loop of Snapshotter.snapshot (debugging.rs lines 57-75), iterating the
captured metadata entries in order and threading the registry, whose histogram
buffers are drained by clear_with as they are read.  A missing handle hits the
expect on line 72, a panic, modelled as none.  The returned entry list records
the contents of the HashMap that snapshot fills (keys are unique in the
metadata map, so every insert is fresh); the enumeration order of that HashMap
is a separate, unspecified matter, see isIntoVecResult. -/
def snapshotGo (reg : Registry) : MetadataMap → Option (List SnapEntry × Registry)
  | [] => some ([], reg)
  | (ck, ud) :: rest =>
      match ck.kind with
      | MetricKind.Counter =>
          match alookup ck.key reg.counters with
          | none => none
          | some v =>
              (snapshotGo reg rest).map fun lr =>
                ((ck, ud.1, ud.2, DebugValue.Counter v) :: lr.1, lr.2)
      | MetricKind.Gauge =>
          match alookup ck.key reg.gauges with
          | none => none
          | some b =>
              (snapshotGo reg rest).map fun lr =>
                ((ck, ud.1, ud.2, DebugValue.Gauge (f64FromBits b)) :: lr.1, lr.2)
      | MetricKind.Histogram =>
          match alookup ck.key reg.histograms with
          | none => none
          | some buf =>
              (snapshotGo { reg with histograms := aset ck.key [] reg.histograms } rest).map
                fun lr => ((ck, ud.1, ud.2, DebugValue.Histogram buf) :: lr.1, lr.2)

/-- Snapshotter.snapshot (debugging.rs lines 48-78): clones the metadata map
under its lock and walks it against the registry handle maps.  Returns the
snapshot contents and the registry as left after histogram drains, or none when
the expect on line 72 panics. -/
def Snapshotter.snapshot (s : DebuggingRecorder) : Option (List SnapEntry × Registry) :=
  snapshotGo s.registry s.metrics

instance : DecidableEq SnapEntry := inferInstance

instance : DecidableEq (List SnapEntry) := inferInstance

instance : DecidableEq (List SnapEntry × Registry) := inferInstance

/-- The possible results of Snapshot.into_vec (debugging.rs lines 21-26): the
Snapshot stores its entries in a std HashMap, whose iteration order is
unspecified, so any permutation of the contents is a permitted enumeration. -/
abbrev isIntoVecResult (out : List SnapEntry) (contents : List SnapEntry) : Prop :=
  List.Perm out contents

/-- Helper predicate: some metadata entry has no registered handle of the
matching kind in the registry. -/
def metadataMissingHandle (reg : Registry) : MetadataMap → Bool
  | [] => false
  | (ck, _) :: rest =>
      (match ck.kind with
        | MetricKind.Counter => (alookup ck.key reg.counters).isNone
        | MetricKind.Gauge => (alookup ck.key reg.gauges).isNone
        | MetricKind.Histogram => (alookup ck.key reg.histograms).isNone)
      || metadataMissingHandle reg rest

theorem set_initialized_eq (rec : Option RecRef) (v : RecorderVariant) :
    RecorderOnceCell.set { recorder := rec, state := CellState.initialized } v =
      { result := Except.error {},
        cell := { recorder := rec, state := CellState.initialized },
        freed := v.dropFrees } := rfl

theorem runSets_initialized (rec : Option RecRef) (vs : List RecorderVariant) :
    runSets { recorder := rec, state := CellState.initialized } vs =
      ({ recorder := rec, state := CellState.initialized }, vs.map fun _ => false) := by
  induction vs with
  | nil => rfl
  | cons v vs ih =>
      simp [runSets, set_initialized_eq, SetOutcome.ok, ih]

/-- C1: on a fresh slot, the first set attempt succeeds and installs its
recorder; every later attempt in the sequence returns the already-set error
(reported false here), and after each failed attempt the slot state is
unchanged, with try_load and recorder still returning the first recorder. -/
theorem set_sequence_first_attempt_wins (v : RecorderVariant) (vs : List RecorderVariant) :
    runSets RecorderOnceCell.new (v :: vs) =
      ({ recorder := some v.ref, state := CellState.initialized },
        true :: vs.map fun _ => false) ∧
    (∀ ws, (runSets { recorder := some v.ref, state := CellState.initialized } ws).1 =
      { recorder := some v.ref, state := CellState.initialized }) ∧
    RecorderOnceCell.try_load
      { recorder := some v.ref, state := CellState.initialized } = some v.ref ∧
    recorder { recorder := some v.ref, state := CellState.initialized } = v.ref := by
  refine ⟨?_, ?_, rfl, rfl⟩
  · simp [runSets, RecorderOnceCell.new, RecorderOnceCell.set,
      RecorderVariant.into_recorder_ref, SetOutcome.ok, runSets_initialized]
  · intro ws
    simp [runSets_initialized]

/-- C3 (code bug evaluation): installing a boxed recorder into a fresh slot
succeeds, stores the leaked reference, and yet frees that same allocation
during the call: RecorderVariant implements Drop, into_recorder_ref consumes
self with a match that only copies the reference out, so self is dropped when
into_recorder_ref returns and the Boxed drop arm frees the box whose reference
was just stored.  The failure path (slot already set) also frees the box, which
is the half the claim gets right. -/
theorem boxed_recorder_freed_even_on_successful_install (r r0 : RecRef) :
    (set_boxed_recorder RecorderOnceCell.new r).ok = true ∧
    (set_boxed_recorder RecorderOnceCell.new r).cell.recorder = some r ∧
    (set_boxed_recorder RecorderOnceCell.new r).freed = [r] ∧
    (RecorderOnceCell.set { recorder := some r0, state := CellState.initialized }
      (RecorderVariant.Boxed r)).freed = [r] := by
  exact ⟨rfl, rfl, rfl, rfl⟩

/-- C6: before any install, try_recorder returns none and recorder returns the
static no-op recorder, whose describe operations leave every observable metric
storage unchanged and whose register operations return the inert no-op handles
that discard writes; after a successful install, try_recorder and recorder
return the installed recorder. -/
theorem noop_default_before_install_installed_after (r : RecRef) (k : Key)
    (kn : KeyName) (u : Option Unit) (d : SharedString) (reg : Registry)
    (amt v sample : Nat) :
    try_recorder RecorderOnceCell.new = none ∧
    recorder RecorderOnceCell.new = noopRef ∧
    NoopRecorder.describe_counter kn u d reg = reg ∧
    NoopRecorder.describe_gauge kn u d reg = reg ∧
    NoopRecorder.describe_histogram kn u d reg = reg ∧
    NoopRecorder.register_counter k reg = (Counter.noop, reg) ∧
    NoopRecorder.register_gauge k reg = (Gauge.noop, reg) ∧
    NoopRecorder.register_histogram k reg = (Histogram.noop, reg) ∧
    Counter.increment Counter.noop amt reg = reg ∧
    Gauge.set Gauge.noop v reg = reg ∧
    Histogram.record Histogram.noop sample reg = reg ∧
    try_recorder (set_recorder RecorderOnceCell.new r).cell = some r ∧
    recorder (set_recorder RecorderOnceCell.new r).cell = r := by
  exact ⟨rfl, rfl, rfl, rfl, rfl, rfl, rfl, rfl, rfl, rfl, rfl, rfl, rfl⟩

/-- C9: the privileged clear resets the state word to Uninitialized while
leaving the stored recorder reference untouched and freeing nothing, so
previously obtained references stay valid; a set attempt after clear succeeds
again and installs the new recorder. -/
theorem clear_resets_state_frees_nothing (c : RecorderOnceCell) (v : RecorderVariant) :
    (clear_recorder c).1.recorder = c.recorder ∧
    (clear_recorder c).2 = [] ∧
    (clear_recorder c).1.state = CellState.uninitialized ∧
    ((clear_recorder c).1.set v).ok = true ∧
    ((clear_recorder c).1.set v).cell.recorder = some v.ref := by
  exact ⟨rfl, rfl, rfl, rfl, rfl⟩

theorem alookup_metadataUpsert_self (k : CompositeKey) (u : Option Unit)
    (d : Option String) (m : MetadataMap) :
    alookup k (metadataUpsert k u d m) = some (u, d) := by
  induction m with
  | nil => simp [metadataUpsert, alookup]
  | cons e rest ih =>
      obtain ⟨k1, v⟩ := e
      by_cases h : k1 = k
      · subst h
        simp [metadataUpsert, alookup]
      · simp [metadataUpsert, alookup, h, ih]

/-- C2 (counterexample): describing the counter key "k" first with unit "U1"
and no description, then with no unit and description "D2", leaves the stored
metadata equal to (none, some "D2"), not (some "U1", some "D2"): the second
call clobbered the previously set unit. -/
theorem describe_twice_clobbers_unit :
    alookup (CompositeKey.new MetricKind.Counter "k")
      (((DebuggingRecorder.new.describe_counter "k" (some "U1") none).describe_counter
        "k" none (some "D2")).metrics) = some (none, some "D2") ∧
    alookup (CompositeKey.new MetricKind.Counter "k")
      (((DebuggingRecorder.new.describe_counter "k" (some "U1") none).describe_counter
        "k" none (some "D2")).metrics) ≠ some (some "U1", some "D2") := by
  constructor
  · rfl
  · decide

/-- C2 (amended): each describe call overwrites both metadata fields with its
own arguments, so after describing the same key twice the stored metadata is
exactly the pair passed by the second call, whatever the first call passed. -/
theorem describe_twice_second_call_wins (s : DebuggingRecorder) (key : Key)
    (u1 u2 : Option Unit) (d1 d2 : Option String) :
    alookup (CompositeKey.new MetricKind.Counter key)
      (((s.describe_counter key u1 d1).describe_counter key u2 d2).metrics)
      = some (u2, d2) := by
  simp [DebuggingRecorder.describe_counter, DebuggingRecorder.register_metric,
    alookup_metadataUpsert_self]

theorem alookup_aset_isNone {κ β : Type} [DecidableEq κ] (k k0 : κ) (v : β)
    (l : List (κ × β)) :
    (alookup k (aset k0 v l)).isNone = (alookup k l).isNone := by
  induction l with
  | nil => rfl
  | cons e rest ih =>
      obtain ⟨k1, v1⟩ := e
      simp only [aset]
      by_cases h0 : k1 = k0
      · subst h0
        simp only [if_pos rfl, alookup]
        by_cases h : k1 = k <;> simp [h, ih]
      · simp only [if_neg h0, alookup]
        by_cases h : k1 = k <;> simp [h, ih]

theorem metadataMissingHandle_drain (reg : Registry) (k0 : Key) (m : MetadataMap) :
    metadataMissingHandle { reg with histograms := aset k0 [] reg.histograms } m
      = metadataMissingHandle reg m := by
  induction m with
  | nil => rfl
  | cons e rest ih =>
      obtain ⟨ck, ud⟩ := e
      cases hk : ck.kind <;>
        simp [metadataMissingHandle, hk, ih, alookup_aset_isNone]

theorem snapshotGo_isNone (m : MetadataMap) (reg : Registry) :
    (snapshotGo reg m).isNone = metadataMissingHandle reg m := by
  induction m generalizing reg with
  | nil => rfl
  | cons e rest ih =>
      obtain ⟨ck, ud⟩ := e
      cases hk : ck.kind
      · cases hl : alookup ck.key reg.counters with
        | none => simp [snapshotGo, metadataMissingHandle, hk, hl]
        | some v =>
            cases hs : snapshotGo reg rest with
            | none =>
                have := ih reg
                simp [hs] at this
                simp [snapshotGo, metadataMissingHandle, hk, hl, hs, ← this]
            | some lr =>
                have := ih reg
                simp [hs] at this
                simp [snapshotGo, metadataMissingHandle, hk, hl, hs, ← this]
      · cases hl : alookup ck.key reg.gauges with
        | none => simp [snapshotGo, metadataMissingHandle, hk, hl]
        | some v =>
            cases hs : snapshotGo reg rest with
            | none =>
                have := ih reg
                simp [hs] at this
                simp [snapshotGo, metadataMissingHandle, hk, hl, hs, ← this]
            | some lr =>
                have := ih reg
                simp [hs] at this
                simp [snapshotGo, metadataMissingHandle, hk, hl, hs, ← this]
      · cases hl : alookup ck.key reg.histograms with
        | none => simp [snapshotGo, metadataMissingHandle, hk, hl]
        | some buf =>
            cases hs : snapshotGo { reg with histograms := aset ck.key [] reg.histograms } rest with
            | none =>
                have := ih { reg with histograms := aset ck.key [] reg.histograms }
                simp [hs, metadataMissingHandle_drain] at this
                simp [snapshotGo, metadataMissingHandle, hk, hl, hs, ← this]
            | some lr =>
                have := ih { reg with histograms := aset ck.key [] reg.histograms }
                simp [hs, metadataMissingHandle_drain] at this
                simp [snapshotGo, metadataMissingHandle, hk, hl, hs, ← this]

/-- C4: snapshot panics (modelled as none) exactly when some composite key in
the captured metadata map has no registered handle of the matching kind in the
registry; when every described key is backed by a handle, snapshot returns
normally. -/
theorem snapshot_panics_iff_handle_missing (s : DebuggingRecorder) :
    (Snapshotter.snapshot s).isNone = metadataMissingHandle s.registry s.metrics := by
  exact snapshotGo_isNone s.metrics s.registry

theorem snapshotGo_keys (m : MetadataMap) :
    ∀ (reg reg1 : Registry) (out : List SnapEntry),
      snapshotGo reg m = some (out, reg1) → out.map Prod.fst = m.map Prod.fst := by
  induction m with
  | nil =>
      intro reg reg1 out h
      simp only [snapshotGo, Option.some.injEq, Prod.mk.injEq] at h
      simp [← h.1]
  | cons e rest ih =>
      intro reg reg1 out h
      obtain ⟨ck, ud⟩ := e
      cases hk : ck.kind
      · rw [snapshotGo, hk] at h
        cases hl : alookup ck.key reg.counters with
        | none => rw [hl] at h; cases h
        | some v =>
            rw [hl] at h
            cases hs : snapshotGo reg rest with
            | none => rw [hs] at h; cases h
            | some lr =>
                rw [hs] at h
                simp only [Option.map_some', Option.some.injEq, Prod.mk.injEq] at h
                rw [← h.1]
                simp [ih reg lr.2 lr.1 (by rw [hs])]
      · rw [snapshotGo, hk] at h
        cases hl : alookup ck.key reg.gauges with
        | none => rw [hl] at h; cases h
        | some v =>
            rw [hl] at h
            cases hs : snapshotGo reg rest with
            | none => rw [hs] at h; cases h
            | some lr =>
                rw [hs] at h
                simp only [Option.map_some', Option.some.injEq, Prod.mk.injEq] at h
                rw [← h.1]
                simp [ih reg lr.2 lr.1 (by rw [hs])]
      · rw [snapshotGo, hk] at h
        cases hl : alookup ck.key reg.histograms with
        | none => rw [hl] at h; cases h
        | some buf =>
            rw [hl] at h
            cases hs : snapshotGo { reg with histograms := aset ck.key [] reg.histograms } rest with
            | none => rw [hs] at h; cases h
            | some lr =>
                rw [hs] at h
                simp only [Option.map_some', Option.some.injEq, Prod.mk.injEq] at h
                rw [← h.1]
                simp [ih _ lr.2 lr.1 (by rw [hs])]

/-- C10: the key set of a returned snapshot is exactly the composite keys of
the metadata map, in particular a metric registered in the registry but never
described does not appear in the snapshot. -/
theorem snapshot_keys_eq_metadata_keys (s : DebuggingRecorder) (out : List SnapEntry)
    (reg1 : Registry) (h : Snapshotter.snapshot s = some (out, reg1)) :
    out.map Prod.fst = s.metrics.map Prod.fst :=
  snapshotGo_keys s.metrics s.registry reg1 out h

/-- State for the C10 witness: counter key b described and registered, counter
key a registered but never described. -/
def c10State : DebuggingRecorder :=
  let s1 := DebuggingRecorder.new.describe_counter "b" none none
  let s2 := (s1.register_counter "b").2
  (s2.register_counter "a").2

def c10Out : List SnapEntry :=
  [(CompositeKey.new MetricKind.Counter "b", none, none, DebugValue.Counter 0)]

def c10Reg : Registry :=
  { counters := [("b", 0), ("a", 0)], gauges := [], histograms := [] }

theorem snapshot_keys_eq_metadata_keys_witness :
    Snapshotter.snapshot c10State = some (c10Out, c10Reg) ∧
    c10Out.map Prod.fst = c10State.metrics.map Prod.fst :=
  ⟨by decide, snapshot_keys_eq_metadata_keys c10State c10Out c10Reg (by decide)⟩

/-- State for C5: two counters a and b, described in that order and both
registered. -/
def c5State : DebuggingRecorder :=
  let s1 := (DebuggingRecorder.new.describe_counter "a" none none).describe_counter
    "b" none none
  let s2 := (s1.register_counter "a").2
  (s2.register_counter "b").2

def c5EntryA : SnapEntry :=
  (CompositeKey.new MetricKind.Counter "a", none, none, DebugValue.Counter 0)

def c5EntryB : SnapEntry :=
  (CompositeKey.new MetricKind.Counter "b", none, none, DebugValue.Counter 0)

def c5Contents : List SnapEntry := [c5EntryA, c5EntryB]

def c5Reg : Registry :=
  { counters := [("a", 0), ("b", 0)], gauges := [], histograms := [] }

/-- C5 (counterexample): the snapshot is stored as a HashMap, whose enumeration
order is unspecified, so the reversed enumeration is a permitted into_vec
result and it differs from the metadata insertion order a then b: entries are
not guaranteed to appear in captured metadata-map order. -/
theorem into_vec_order_not_guaranteed :
    Snapshotter.snapshot c5State = some (c5Contents, c5Reg) ∧
    isIntoVecResult [c5EntryB, c5EntryA] c5Contents ∧
    [c5EntryB, c5EntryA] ≠ c5Contents := by
  refine ⟨by decide, by decide, by decide⟩

/-- C5 (amended): the contents of a returned snapshot list the metadata keys in
captured order, and any into_vec enumeration is a permutation of those
contents, so its keys are the metadata keys up to an unspecified order. -/
theorem into_vec_is_permutation_of_metadata (s : DebuggingRecorder)
    (contents out : List SnapEntry) (reg1 : Registry)
    (h : Snapshotter.snapshot s = some (contents, reg1))
    (h2 : isIntoVecResult out contents) :
    contents.map Prod.fst = s.metrics.map Prod.fst ∧
    List.Perm (out.map Prod.fst) (s.metrics.map Prod.fst) := by
  have hk := snapshotGo_keys s.metrics s.registry reg1 contents h
  have h3 : List.Perm (out.map Prod.fst) (contents.map Prod.fst) := h2.map Prod.fst
  rw [hk] at h3
  exact ⟨hk, h3⟩

theorem into_vec_is_permutation_of_metadata_witness :
    Snapshotter.snapshot c5State = some (c5Contents, c5Reg) ∧
    isIntoVecResult [c5EntryB, c5EntryA] c5Contents ∧
    (c5Contents.map Prod.fst = c5State.metrics.map Prod.fst ∧
      List.Perm (List.map Prod.fst [c5EntryB, c5EntryA]) (c5State.metrics.map Prod.fst)) :=
  ⟨by decide, by decide,
    into_vec_is_permutation_of_metadata c5State c5Contents [c5EntryB, c5EntryA] c5Reg
      (by decide) (by decide)⟩

/-- Scenario for C7: one histogram, described and registered, with the samples
a, b, c recorded through its handle. -/
def histScenario (k : Key) (a b c : Nat) : DebuggingRecorder :=
  let s1 := DebuggingRecorder.new.describe_histogram k none none
  let hr := s1.register_histogram k
  { registry :=
      Histogram.record hr.1 c (Histogram.record hr.1 b (Histogram.record hr.1 a hr.2.registry))
    metrics := hr.2.metrics }

/-- C7: snapshotting a histogram whose buffer holds the samples a, b, c yields
a Histogram value containing exactly those samples, and the drain clears the
buffer, so a second immediate snapshot on the resulting state yields an empty
sequence for that histogram. -/
theorem histogram_snapshot_drains (k : Key) (a b c : Nat) :
    Snapshotter.snapshot (histScenario k a b c) =
      some ([(CompositeKey.new MetricKind.Histogram k, none, none,
          DebugValue.Histogram [a, b, c])],
        { counters := [], gauges := [], histograms := [(k, [])] }) ∧
    Snapshotter.snapshot
      { registry := { counters := [], gauges := [], histograms := [(k, [])] }
        metrics := (histScenario k a b c).metrics } =
      some ([(CompositeKey.new MetricKind.Histogram k, none, none, DebugValue.Histogram [])],
        { counters := [], gauges := [], histograms := [(k, [])] }) := by
  constructor <;>
    simp [histScenario, Snapshotter.snapshot, snapshotGo, DebuggingRecorder.new,
      DebuggingRecorder.describe_histogram, DebuggingRecorder.register_metric,
      DebuggingRecorder.register_histogram, Registry.get_or_create_histogram,
      Registry.new, metadataUpsert, alookup, aset, Histogram.record, CompositeKey.new]

/-- Scenario for C8: one gauge, described and registered, set to the value with
bit pattern v. -/
def gaugeScenario (k : Key) (v : Nat) : DebuggingRecorder :=
  let s1 := DebuggingRecorder.new.describe_gauge k none none
  let gr := s1.register_gauge k
  { registry := Gauge.set gr.1 v gr.2.registry
    metrics := gr.2.metrics }

/-- C8: the gauge storage receives the 64-bit pattern of the stored value and
the snapshot read applies from_bits to the loaded pattern, the identity on bit
patterns, so the snapshot reports exactly the stored bit pattern for every
value, NaN, infinities and signed zeros included. -/
theorem gauge_snapshot_exact_bits (k : Key) (v : Nat) :
    f64FromBits (f64ToBits v) = v ∧
    Snapshotter.snapshot (gaugeScenario k v) =
      some ([(CompositeKey.new MetricKind.Gauge k, none, none, DebugValue.Gauge v)],
        { counters := [], gauges := [(k, f64ToBits v)], histograms := [] }) := by
  refine ⟨rfl, ?_⟩
  simp [gaugeScenario, Snapshotter.snapshot, snapshotGo, DebuggingRecorder.new,
    DebuggingRecorder.describe_gauge, DebuggingRecorder.register_metric,
    DebuggingRecorder.register_gauge, Registry.get_or_create_gauge,
    Registry.new, metadataUpsert, alookup, aset, Gauge.set, f64ToBits, f64FromBits,
    CompositeKey.new]

end Metrics
